import Mathlib

/-!
Verification of the daisser ingestion pipeline: the position store fed by the
MQTT dispatch loop in `cmd/daisser/main.go`, the snapshot serialization
(`Server.Positions`), the listener configuration (`Server.Listen`), and the
message classifier of the `owntracks` package (modelled from the spec where
the package source is absent).

Machine integers that the code only copies (latitude/longitude float64,
accuracy/battery int) are carried opaquely; no arithmetic is performed on
them anywhere in the embedded code, so latitude/longitude are represented by
`Int` stand-ins.
-/

set_option autoImplicit false

namespace Daisser

/-- Trigger classification of a location report. Modelled from the spec: the
enumeration lives in the `owntracks` package, which is not under `src/`; the
spec lists ping, circular-region, beacon-region, report-response, manual,
timer, automatic, and unknown for any other or missing code. -/
inductive Trigger where
  | ping
  | circularRegion
  | beaconRegion
  | reportResponse
  | manual
  | timer
  | automatic
  | unknown
deriving DecidableEq

/-- The decoded location record `owntracks.LocationUpdate`. The struct is
declared in the `owntracks` package (not under `src/`); the fields are those
read by `Server.Positions` and `Server.addPositionUpdate` in
`cmd/daisser/main.go` (`T`, `User`, `ClientID`, `TrackerID`, `Accuracy`,
`Description`, `Longitude`, `Latitude`), completed from the spec with the
trigger classification and battery percentage. The timestamp `T` is an epoch
number; `T = 0` is the Go zero value of `time.Time`, i.e. an unset timestamp. -/
structure LocationUpdate where
  T : Nat := 0
  Trig : Trigger := .unknown
  User : String := ""
  ClientID : String := ""
  TrackerID : String := ""
  Accuracy : Int := 0
  Battery : Int := 0
  Latitude : Int := 0
  Longitude : Int := 0
  Description : String := ""
deriving DecidableEq

/-- The zero-value `owntracks.LocationUpdate`: every field at its Go zero
value. Per the spec it signals "not a valid location update". -/
def zeroUpdate : LocationUpdate := {}

/-- Validity of a LocationUpdate: per the spec, callers distinguish valid
from invalid solely by checking whether the timestamp is set. -/
def LocationUpdate.isValid (u : LocationUpdate) : Bool := u.T != 0

/-- A Go `map[string]α` as an association list with at most one entry per
key: assignment replaces an existing entry in place or appends a new one. -/
def mapUpsert {α : Type} : List (String × α) → String → α → List (String × α)
  | [], k, v => [(k, v)]
  | (k0, v0) :: rest, k, v =>
      if k0 = k then (k, v) :: rest else (k0, v0) :: mapUpsert rest k v

/-- Reading a Go `map[string]α`: the entry under a key, if present. -/
def mapLookup {α : Type} : List (String × α) → String → Option α
  | [], _ => none
  | (k0, v0) :: rest, k => if k0 = k then some v0 else mapLookup rest k

/-- The `PositionSet` of `cmd/daisser/main.go`: `map[string]owntracks.LocationUpdate`. -/
abbrev PositionSet := List (String × LocationUpdate)

/-- The key computed by `Server.addPositionUpdate`: `k := lu.User + lu.TrackerID`
(plain string concatenation, no separator). -/
def posKey (lu : LocationUpdate) : String := lu.User ++ lu.TrackerID

/-- `Server.addPositionUpdate`: `s.positions[k] = lu` under the write lock. -/
def addPositionUpdate (s : PositionSet) (lu : LocationUpdate) : PositionSet :=
  mapUpsert s (posKey lu) lu

theorem mapLookup_mapUpsert_self {α : Type} (s : List (String × α)) (k : String) (v : α) :
    mapLookup (mapUpsert s k v) k = some v := by
  induction s with
  | nil => simp [mapUpsert, mapLookup]
  | cons hd tl ih =>
      obtain ⟨k0, v0⟩ := hd
      by_cases h : k0 = k
      · simp [mapUpsert, mapLookup, h]
      · simp [mapUpsert, mapLookup, h, ih]

theorem mapLookup_mapUpsert_ne {α : Type} (s : List (String × α)) (k k' : String) (v : α)
    (h : k' ≠ k) : mapLookup (mapUpsert s k v) k' = mapLookup s k' := by
  induction s with
  | nil => simp [mapUpsert, mapLookup, Ne.symm h]
  | cons hd tl ih =>
      obtain ⟨k0, v0⟩ := hd
      by_cases h0 : k0 = k
      · subst h0
        simp [mapUpsert, mapLookup, Ne.symm h]
      · simp [mapUpsert, mapLookup, h0, ih]

theorem mapUpsert_idem {α : Type} (s : List (String × α)) (k : String) (v : α) :
    mapUpsert (mapUpsert s k v) k v = mapUpsert s k v := by
  induction s with
  | nil => simp [mapUpsert]
  | cons hd tl ih =>
      obtain ⟨k0, v0⟩ := hd
      by_cases h : k0 = k
      · simp [mapUpsert, h]
      · simp [mapUpsert, h, ih]

theorem mapUpsert_length_mem {α : Type} (s : List (String × α)) (k : String) (v : α)
    (h : mapLookup s k = none) :
    (mapUpsert s k v).length = s.length + 1 := by
  induction s with
  | nil => simp [mapUpsert]
  | cons hd tl ih =>
      obtain ⟨k0, v0⟩ := hd
      by_cases h0 : k0 = k
      · simp [mapLookup, h0] at h
      · simp [mapLookup, h0] at h
        simp [mapUpsert, h0, ih h]

/-- C2: latest-write-wins. For every pair of updates with the same key,
`addPositionUpdate` for U1 then U2 leaves the store holding U2 under that
key; no timestamp hypothesis appears, so this holds even when the timestamp
of U2 is earlier than that of U1 — the code never compares timestamps. -/
theorem addPositionUpdate_latest_write_wins (s : PositionSet) (u1 u2 : LocationUpdate)
    (h : posKey u1 = posKey u2) :
    mapLookup (addPositionUpdate (addPositionUpdate s u1) u2) (posKey u1) = some u2 := by
  rw [h]
  exact mapLookup_mapUpsert_self _ _ _

/-- Concrete updates for the C2 witness: same (user, tracker) key, the second
with an earlier timestamp. -/
def lwwFirst : LocationUpdate :=
  { T := 100, Trig := .manual, User := "alice", ClientID := "phone1",
    TrackerID := "t1", Accuracy := 5, Battery := 80,
    Latitude := 52, Longitude := 13, Description := "x" }

def lwwSecond : LocationUpdate :=
  { T := 40, Trig := .timer, User := "alice", ClientID := "phone2",
    TrackerID := "t1", Accuracy := 7, Battery := 60,
    Latitude := 48, Longitude := 11, Description := "y" }

/-- Witness for C2 at concrete inputs with the stale update delivered second. -/
theorem addPositionUpdate_latest_write_wins_witness :
    posKey lwwFirst = posKey lwwSecond ∧ lwwSecond.T < lwwFirst.T ∧
    mapLookup (addPositionUpdate (addPositionUpdate [] lwwFirst) lwwSecond)
      (posKey lwwFirst) = some lwwSecond :=
  ⟨rfl, by decide, addPositionUpdate_latest_write_wins [] lwwFirst lwwSecond rfl⟩

/-- C7: idempotence. Applying the same valid LocationUpdate twice in a row
yields exactly the same store state as applying it once. -/
theorem addPositionUpdate_idempotent (s : PositionSet) (u : LocationUpdate)
    (h : u.isValid = true) :
    addPositionUpdate (addPositionUpdate s u) u = addPositionUpdate s u :=
  mapUpsert_idem s (posKey u) u

/-- Witness for C7 at a concrete valid update. -/
theorem addPositionUpdate_idempotent_witness :
    lwwFirst.isValid = true ∧
    addPositionUpdate (addPositionUpdate [] lwwFirst) lwwFirst =
      addPositionUpdate [] lwwFirst :=
  ⟨by decide, addPositionUpdate_idempotent [] lwwFirst (by decide)⟩

/-- C10: frame effect of upsert. Applying an update changes at most the
entry under its own key: for every other key, the stored value and its
presence or absence are unchanged. -/
theorem addPositionUpdate_frame (s : PositionSet) (u : LocationUpdate) (k : String)
    (h : k ≠ posKey u) :
    mapLookup (addPositionUpdate s u) k = mapLookup s k :=
  mapLookup_mapUpsert_ne s (posKey u) k u h

/-- Witness for C10 at a concrete store and a key different from the one of
the applied update. -/
theorem addPositionUpdate_frame_witness :
    "bobt9" ≠ posKey lwwFirst ∧
    mapLookup (addPositionUpdate [("bobt9", lwwSecond)] lwwFirst) "bobt9" =
      mapLookup [("bobt9", lwwSecond)] "bobt9" :=
  ⟨by decide, addPositionUpdate_frame [("bobt9", lwwSecond)] lwwFirst "bobt9" (by decide)⟩

/-- Updates whose (user, tracker) pairs are distinct but whose concatenated
keys coincide: ("ab", "c") and ("a", "bc") both map to key "abc". -/
def collideA : LocationUpdate :=
  { T := 1, Trig := .manual, User := "ab", ClientID := "p1", TrackerID := "c" }

def collideB : LocationUpdate :=
  { T := 2, Trig := .manual, User := "a", ClientID := "p2", TrackerID := "bc" }

/-- C5 counterexample: the key is the concatenation `lu.User + lu.TrackerID`
with no separator, so the distinct pairs ("ab","c") and ("a","bc") collide;
applying both to the empty store leaves a single entry — the second
overwrites the first, refuting the claim that distinct (user, tracker-id)
pairs always yield two distinct entries. -/
theorem posKey_pairs_collide :
    (collideA.User, collideA.TrackerID) ≠ (collideB.User, collideB.TrackerID) ∧
    (addPositionUpdate (addPositionUpdate [] collideA) collideB).length = 1 ∧
    mapLookup (addPositionUpdate (addPositionUpdate [] collideA) collideB)
      (posKey collideA) = some collideB := by
  refine ⟨by decide, by decide, by decide⟩

/-- C5 amended: for every two updates whose concatenated keys
`User ++ TrackerID` are distinct, applying both to the store yields two
distinct entries: each key still holds its own update, neither overwrites
the other. -/
theorem addPositionUpdate_distinct_keys (s : PositionSet) (u1 u2 : LocationUpdate)
    (h : posKey u1 ≠ posKey u2) :
    mapLookup (addPositionUpdate (addPositionUpdate s u1) u2) (posKey u1) = some u1 ∧
    mapLookup (addPositionUpdate (addPositionUpdate s u1) u2) (posKey u2) = some u2 := by
  constructor
  · rw [addPositionUpdate, mapLookup_mapUpsert_ne _ _ _ _ h]
    exact mapLookup_mapUpsert_self _ _ _
  · exact mapLookup_mapUpsert_self _ _ _

/-- Witness for the amended C5 at concrete updates with distinct keys. -/
theorem addPositionUpdate_distinct_keys_witness :
    posKey lwwFirst ≠ posKey collideA ∧
    mapLookup (addPositionUpdate (addPositionUpdate [] lwwFirst) collideA)
      (posKey lwwFirst) = some lwwFirst ∧
    mapLookup (addPositionUpdate (addPositionUpdate [] lwwFirst) collideA)
      (posKey collideA) = some collideA :=
  ⟨by decide,
   (addPositionUpdate_distinct_keys [] lwwFirst collideA (by decide)).1,
   (addPositionUpdate_distinct_keys [] lwwFirst collideA (by decide)).2⟩

/-- Geometry part of a `Feature` in `cmd/daisser/main.go`: a type tag and a
coordinate array. -/
structure Geometry where
  type : String
  coordinates : List Int
deriving DecidableEq

/-- The `Feature` struct of `cmd/daisser/main.go`: type tag, a properties map
(modelled in assignment order), and a geometry. -/
structure Feature where
  type : String
  properties : List (String × String)
  geometry : Geometry
deriving DecidableEq

/-- The `FeatureCollection` struct of `cmd/daisser/main.go`. -/
structure FeatureCollection where
  type : String
  features : List Feature
deriving DecidableEq

/-- Rendering of the timestamp by `v.T.String()`; the exact Go time format
is irrelevant to the claims, the embedding renders the epoch number. -/
def timeString (t : Nat) : String := toString t

/-- The feature built for one stored update by the loop body of
`Server.Positions`: properties Time, User, Client, Tracker, Accuracy and
Description in assignment order, point geometry with coordinates
longitude then latitude. -/
def featureOf (v : LocationUpdate) : Feature :=
  { type := "Feature"
    properties :=
      [("Time", timeString v.T), ("User", v.User), ("Client", v.ClientID),
       ("Tracker", v.TrackerID), ("Accuracy", toString v.Accuracy),
       ("Description", v.Description)]
    geometry := { type := "Point", coordinates := [v.Longitude, v.Latitude] } }

/-- `Server.Positions` before JSON marshalling: one feature appended per
entry of `s.positions`, collection type "FeatureCollection". -/
def positionsResponse (s : PositionSet) : FeatureCollection :=
  { type := "FeatureCollection", features := s.map (fun kv => featureOf kv.2) }

/-- A stored update with a nonzero battery level, used to exhibit that the
serialization drops the battery. -/
def battUpdate : LocationUpdate :=
  { T := 1700000000, Trig := .manual, User := "alice", ClientID := "phone1",
    TrackerID := "t1", Accuracy := 5, Battery := 80, Latitude := 52,
    Longitude := 13, Description := "desk" }

/-- C4 counterexample: serializing a store holding one update whose battery
is 80 yields one feature, and no property of that feature names the battery
or carries its value — `Server.Positions` writes only Time, User, Client,
Tracker, Accuracy and Description, so the claim that the properties carry
the battery is false. -/
theorem Positions_omits_battery :
    (positionsResponse [(posKey battUpdate, battUpdate)]).features.length = 1 ∧
    ∀ f ∈ (positionsResponse [(posKey battUpdate, battUpdate)]).features,
      ∀ kv ∈ f.properties, kv.1 ≠ "Battery" ∧ kv.2 ≠ "80" := by
  decide

/-- C4 amended: for every store state, the serialization produces one feature
per stored LocationUpdate; each feature is a point geometry built from
longitude and latitude, and its properties carry the timestamp, user, client
id, tracker id, accuracy and description of that update (the battery is not
serialized). -/
theorem Positions_serialization (s : PositionSet) (k : String) (v : LocationUpdate)
    (h : (k, v) ∈ s) :
    (positionsResponse s).features.length = s.length ∧
    featureOf v ∈ (positionsResponse s).features ∧
    (featureOf v).type = "Feature" ∧
    (featureOf v).geometry.type = "Point" ∧
    (featureOf v).geometry.coordinates = [v.Longitude, v.Latitude] ∧
    mapLookup (featureOf v).properties "Time" = some (timeString v.T) ∧
    mapLookup (featureOf v).properties "User" = some v.User ∧
    mapLookup (featureOf v).properties "Client" = some v.ClientID ∧
    mapLookup (featureOf v).properties "Tracker" = some v.TrackerID ∧
    mapLookup (featureOf v).properties "Accuracy" = some (toString v.Accuracy) ∧
    mapLookup (featureOf v).properties "Description" = some v.Description := by
  refine ⟨?_, ?_, rfl, rfl, rfl, ?_, ?_, ?_, ?_, ?_, ?_⟩
  · simp [positionsResponse]
  · exact List.mem_map_of_mem (fun kv => featureOf kv.2) h
  all_goals simp [featureOf, mapLookup]

/-- Witness for the amended C4 at a concrete one-entry store. -/
theorem Positions_serialization_witness :
    (posKey battUpdate, battUpdate) ∈ [(posKey battUpdate, battUpdate)] ∧
    (positionsResponse [(posKey battUpdate, battUpdate)]).features.length = 1 :=
  ⟨List.mem_singleton.mpr rfl,
   (Positions_serialization [(posKey battUpdate, battUpdate)] (posKey battUpdate)
      battUpdate (List.mem_singleton.mpr rfl)).1⟩

/-- The daisser process configuration struct of `cmd/daisser/main.go`: MQTT
host, port, user and password, URL base, database file and listen mode. It
has no TLS field. -/
structure Config where
  MQTTHost : String
  MQTTPort : Nat
  MQTTUser : String
  MQTTPassword : String
  UrlBase : String
  DbFile : String
  Listen : String
deriving DecidableEq

/-- The `owntracks.Listener` connection record. The package is not under
`src/`; the fields are exactly those set by the composite literal in
`Server.Listen`, matching the ConnectionConfig of the spec (broker hostname,
port, username, password, TLS enabled flag, client identifier). -/
structure Listener where
  Hostname : String
  Port : Nat
  Username : String
  Password : String
  UseTLS : Bool
  ClientID : String
deriving DecidableEq

/-- The listener built by `Server.Listen` from the configuration: host, port,
user and password are copied from the config, `UseTLS` is the literal `true`
and the client identifier is the literal "daisser-server". -/
def mkListener (c : Config) : Listener :=
  { Hostname := c.MQTTHost, Port := c.MQTTPort, Username := c.MQTTUser,
    Password := c.MQTTPassword, UseTLS := true, ClientID := "daisser-server" }

def cfgPlain : Config :=
  { MQTTHost := "broker.example", MQTTPort := 1883, MQTTUser := "alice",
    MQTTPassword := "pw1", UrlBase := "", DbFile := "positions.db",
    Listen := "fastcgi" }

def cfgOther : Config :=
  { MQTTHost := "other.example", MQTTPort := 8883, MQTTUser := "bob",
    MQTTPassword := "pw2", UrlBase := "/d", DbFile := "other.db",
    Listen := ":8080" }

/-- C6 counterexample: the claim requires the TLS setting of the connection
attempt to track a configured TLS flag, so some configuration must yield a
connection without TLS. The config struct has no TLS field at all, and two
configurations differing in every field both produce a listener with
`UseTLS = true`: the TLS setting is the hardcoded literal in `Server.Listen`,
not supplied by the configuration, refuting the claim. -/
theorem Listen_TLS_not_from_config :
    cfgPlain.MQTTHost ≠ cfgOther.MQTTHost ∧ cfgPlain.MQTTPort ≠ cfgOther.MQTTPort ∧
    cfgPlain.MQTTUser ≠ cfgOther.MQTTUser ∧
    cfgPlain.MQTTPassword ≠ cfgOther.MQTTPassword ∧
    cfgPlain.UrlBase ≠ cfgOther.UrlBase ∧ cfgPlain.DbFile ≠ cfgOther.DbFile ∧
    cfgPlain.Listen ≠ cfgOther.Listen ∧
    (mkListener cfgPlain).UseTLS = true ∧ (mkListener cfgOther).UseTLS = true := by
  decide

/-- C6 amended: the TLS-enabled flag is hardcoded in `Server.Listen`; for
every configuration the connection attempt uses TLS. -/
theorem Listen_always_TLS (c : Config) : (mkListener c).UseTLS = true := rfl

/-- One arrival at the select of the dispatch goroutine in `Server.Listen`:
the closed done channel, a LocationUpdate on `parser.L`, or an unclassified
message (topic and payload) on `parser.O`. -/
inductive DispatchEvent where
  | done
  | loc (l : LocationUpdate)
  | other (topic payload : String)
deriving DecidableEq

/-- Control position of the dispatch goroutine: inside the for/select loop,
or past it (where `s.listener.Disconnect()` is called). -/
inductive LoopCtl where
  | looping
  | exited
deriving DecidableEq

/-- State of the dispatch goroutine of `Server.Listen`: the position store,
the log lines written so far, the control position, and whether
`Disconnect` has been invoked. -/
structure LoopState where
  positions : PositionSet
  log : List String
  ctl : LoopCtl
  disconnectCalled : Bool
deriving DecidableEq

/-- The state of the dispatch goroutine when it starts: empty store, empty
log, inside the loop, `Disconnect` not yet called. -/
def initLoopState : LoopState :=
  { positions := [], log := [], ctl := .looping, disconnectCalled := false }

/-- The log line written for a message on `parser.O`. -/
def otherLogLine (topic payload : String) : String :=
  "Received other message: " ++ topic ++ " " ++ payload

/-- One iteration of the for/select loop in `Server.Listen`. The body of the
done case is empty and contains no break or return, so control stays inside
the loop on every event; the `Disconnect` call after the loop would set
`ctl := .exited` and `disconnectCalled := true`, but no case leaves the
loop, so that code is unreachable. A location update from `parser.L` is
stored unconditionally via `addPositionUpdate` (no validity check); a
message from `parser.O` is logged and nothing else happens. -/
def listenStep (st : LoopState) (e : DispatchEvent) : LoopState :=
  match st.ctl with
  | .exited => st
  | .looping =>
      match e with
      | .done => st
      | .loc l => { st with positions := addPositionUpdate st.positions l }
      | .other t p => { st with log := st.log ++ [otherLogLine t p] }

/-- Running the dispatch goroutine over a sequence of arrivals. -/
def runLoop (es : List DispatchEvent) : LoopState :=
  es.foldl listenStep initLoopState

theorem listenStep_stays_looping (st : LoopState) (e : DispatchEvent)
    (h1 : st.ctl = .looping) (h2 : st.disconnectCalled = false) :
    (listenStep st e).ctl = .looping ∧ (listenStep st e).disconnectCalled = false := by
  cases e <;> simp [listenStep, h1, h2]

theorem foldl_listenStep_stays_looping (es : List DispatchEvent) (st : LoopState)
    (h1 : st.ctl = .looping) (h2 : st.disconnectCalled = false) :
    (es.foldl listenStep st).ctl = .looping ∧
    (es.foldl listenStep st).disconnectCalled = false := by
  induction es generalizing st with
  | nil => exact ⟨h1, h2⟩
  | cons e es ih =>
      obtain ⟨h1s, h2s⟩ := listenStep_stays_looping st e h1 h2
      exact ih (listenStep st e) h1s h2s

/-- A location update delivered after the shutdown signal. -/
def afterDoneUpdate : LocationUpdate :=
  { T := 42, Trig := .ping, User := "alice", ClientID := "phone1",
    TrackerID := "t1", Accuracy := 3, Battery := 50, Latitude := 52,
    Longitude := 13, Description := "" }

/-- C3: the done case of the select in `Server.Listen` has an empty body and
no break or return, so the loop never terminates and the `Disconnect` call
after it is unreachable. No event sequence ever reaches a state where
`Disconnect` has been invoked, and after the shutdown signal the loop keeps
consuming: delivering the shutdown signal and then a location update leaves
the goroutine still looping, with `Disconnect` never called and the update
stored — contradicting the claimed stop, disconnect and terminate. -/
theorem Listen_never_disconnects :
    (∀ es : List DispatchEvent,
      (runLoop es).ctl = .looping ∧ (runLoop es).disconnectCalled = false) ∧
    (runLoop [.done, .loc afterDoneUpdate]).positions =
      [("alicet1", afterDoneUpdate)] :=
  ⟨fun es => foldl_listenStep_stays_looping es initLoopState rfl rfl, by decide⟩

/-- C8: a message delivered on the unclassified-message channel `parser.O`
is logged and leaves the position store completely unchanged. -/
theorem Listen_other_message_frame (st : LoopState) (t p : String)
    (h : st.ctl = .looping) :
    (listenStep st (.other t p)).positions = st.positions ∧
    (listenStep st (.other t p)).log = st.log ++ [otherLogLine t p] := by
  simp [listenStep, h]

/-- Witness for C8: the ping message of the spec end-to-end example, applied
to the initial state. -/
theorem Listen_other_message_frame_witness :
    initLoopState.ctl = .looping ∧
    (listenStep initLoopState
        (.other "owntracks/alice/phone1" "ping")).positions = initLoopState.positions ∧
    (listenStep initLoopState (.other "owntracks/alice/phone1" "ping")).log =
      initLoopState.log ++ [otherLogLine "owntracks/alice/phone1" "ping"] :=
  ⟨rfl,
   (Listen_other_message_frame initLoopState "owntracks/alice/phone1" "ping" rfl).1,
   (Listen_other_message_frame initLoopState "owntracks/alice/phone1" "ping" rfl).2⟩

/-- Splitting a character list at the slash separator. -/
def splitCharsAux : List Char → List Char → List (List Char)
  | [], acc => [acc.reverse]
  | c :: cs, acc =>
      if c = '/' then acc.reverse :: splitCharsAux cs []
      else splitCharsAux cs (c :: acc)

/-- Splitting a topic string at the slash separator, as the topic validation
of the classifier does. -/
def splitSlash (s : String) : List String :=
  (splitCharsAux s.data []).map String.mk

/-- Modelled from the spec: the result of attempting to parse a payload as a
generic structured document (the parser lives in the `owntracks` package,
which is not under `src/`). A structurally invalid payload, or a document
with a type discriminator and the location fields (absent fields take their
zero values, as a Go JSON decode leaves them). -/
inductive PayloadDoc where
  | invalid
  | doc (docType : String) (lat lon : Int) (tst : Nat) (acc batt : Int)
        (tid dsc trig : String)
deriving DecidableEq

/-- Modelled from the spec: the one-character trigger code mapped to the
trigger classification, any other or missing code mapped to unknown; the
spec end-to-end example pins the code "u" to manual. -/
def decodeTrigger (c : String) : Trigger :=
  if c = "p" then .ping
  else if c = "c" then .circularRegion
  else if c = "b" then .beaconRegion
  else if c = "r" then .reportResponse
  else if c = "u" then .manual
  else if c = "t" then .timer
  else if c = "a" then .automatic
  else .unknown

/-- Outcome of classifying one raw message: silently dropped, a
LocationUpdate on the L channel, or an unclassified message on the O
channel. -/
inductive ClassifyResult where
  | dropped
  | loc (l : LocationUpdate)
  | other
deriving DecidableEq

/-- Modelled from the spec: the classifier/decoder run by
`owntracks.RunMessageParser` (not under `src/`). A payload that fails
structural parsing is silently dropped; a document whose type discriminator
is not "location" passes through unclassified; otherwise the topic must be
the fixed prefix "owntracks" followed by exactly two path segments (user and
client identifier) — any other topic shape yields the zero-value
LocationUpdate, which carries no error state, so it is emitted on the L
channel like any other update and the caller must discard it. -/
def classify (topic : String) (p : PayloadDoc) : ClassifyResult :=
  match p with
  | .invalid => .dropped
  | .doc ty lat lon tst acc batt tid dsc trig =>
      if ty = "location" then
        match splitSlash topic with
        | [pre, user, cid] =>
            if pre = "owntracks" then
              .loc { T := tst, Trig := decodeTrigger trig, User := user,
                     ClientID := cid, TrackerID := tid, Accuracy := acc,
                     Battery := batt, Latitude := lat, Longitude := lon,
                     Description := dsc }
            else .loc zeroUpdate
        | _ => .loc zeroUpdate
      else .other

/-- A structurally valid location payload, as in the spec end-to-end
example for a malformed topic. -/
def badTopicPayload : PayloadDoc :=
  .doc "location" 52 13 1700000000 5 80 "t1" "" "u"

/-- C1: a valid location payload on the malformed topic "badtopic" is
classified as the zero-value LocationUpdate and delivered on the L channel;
the dispatch loop of `Server.Listen` stores every update from that channel
without checking validity, so the reachable store state after this one
message holds an entry whose timestamp is unset — the zero-value update is
stored, contradicting the claim. -/
theorem Listen_stores_zero_value :
    classify "badtopic" badTopicPayload = .loc zeroUpdate ∧
    zeroUpdate.isValid = false ∧
    (runLoop [.loc zeroUpdate]).positions = [("", zeroUpdate)] ∧
    mapLookup (runLoop [.loc zeroUpdate]).positions "" = some zeroUpdate ∧
    zeroUpdate.T = 0 := by
  refine ⟨by decide, by decide, by decide, by decide, rfl⟩

end Daisser
